import Mathlib

/-!
Shallow embedding of the paiement-service subscription reconciliation code.

The definitions below are translated from the JavaScript sources:
  - src/models/Subscription.js            (schema, hooks, canBeReactivated, cleanupExpired)
  - src/services/subscriptionIntegrationService.js
  - src/controllers/webhookController.js
  - src/routes/stripeWebhookRoutes.js
  - src/services/metricRetryService.js

Dates are modelled at day precision as (year, month 0-11, day 1-31) triples,
mirroring JS Date calendar arithmetic (setMonth / setFullYear with overflow
normalisation) and epoch-seconds conversion (new Date(sec * 1000)) via the
standard civil-from-days algorithm. The Mongo store is modelled per user as
an optional record (one record per userId); findOneAndUpdate is a field
merge. The Stripe client is an oracle parameter giving each remote call
outcome. Error messages keep the leading words of the source strings.
-/

namespace Paiement

/-- JS Date at day precision (month is 0-based as in JS). -/
structure JsDate where
  year : Int
  month : Int
  day : Int
deriving Repr, DecidableEq

/-- Chronological strict order on well-formed dates (JS compares timestamps). -/
def JsDate.ltb (a b : JsDate) : Bool :=
  a.year < b.year ||
    (a.year == b.year &&
      (a.month < b.month || (a.month == b.month && a.day < b.day)))

/-- Chronological order, non-strict. -/
def JsDate.leb (a b : JsDate) : Bool :=
  a == b || JsDate.ltb a b

def isLeapYear (y : Int) : Bool :=
  y % 4 == 0 && (y % 100 != 0 || y % 400 == 0)

/-- Days in a month, month 0-based as in JS. -/
def daysInMonth (y : Int) (m : Int) : Int :=
  if m == 1 then (if isLeapYear y then 29 else 28)
  else if m == 3 || m == 5 || m == 8 || m == 10 then 30
  else 31

/-- JS Date normalisation of a day overflowing its month (e.g. Feb 31 becomes
Mar 2 or 3). A single carry step suffices for the setMonth / setFullYear uses
below, where the day never exceeds 31. -/
def JsDate.normalizeDay (d : JsDate) : JsDate :=
  let dim := daysInMonth d.year d.month
  if d.day ≤ dim then d
  else if d.month == 11 then ⟨d.year + 1, 0, d.day - dim⟩
  else ⟨d.year, d.month + 1, d.day - dim⟩

/-- endDate.setMonth(endDate.getMonth() + 1) in JS. -/
def JsDate.addOneMonth (d : JsDate) : JsDate :=
  let m := d.month + 1
  if m ≥ 12 then JsDate.normalizeDay ⟨d.year + 1, m - 12, d.day⟩
  else JsDate.normalizeDay ⟨d.year, m, d.day⟩

/-- endDate.setFullYear(endDate.getFullYear() + 1) in JS. -/
def JsDate.addOneYear (d : JsDate) : JsDate :=
  JsDate.normalizeDay ⟨d.year + 1, d.month, d.day⟩

/-- Civil date from days since 1970-01-01 (proleptic Gregorian), the arithmetic
underlying JS Date; month converted to 0-based. -/
def civilFromDays (z0 : Int) : JsDate :=
  let z := z0 + 719468
  let era := z.fdiv 146097
  let doe := z - era * 146097
  let yoe := (doe - doe / 1460 + doe / 36524 - doe / 146096) / 365
  let y := yoe + era * 400
  let doy := doe - (365 * yoe + yoe / 4 - yoe / 100)
  let mp := (5 * doy + 2) / 153
  let d := doy - (153 * mp + 2) / 5 + 1
  let m := mp + (if mp < 10 then 3 else -9)
  ⟨(if m ≤ 2 then y + 1 else y), m - 1, d⟩

/-- new Date(sec * 1000) for an epoch expressed in seconds, at day precision. -/
def epochSecToJsDate (s : Int) : JsDate :=
  civilFromDays (s.fdiv 86400)

/-! ## Subscription record (src/models/Subscription.js, SubscriptionSchema)

One document per userId; we model the store per user as an
`Option Subscription`. Timestamps (createdAt / updatedAt) are omitted. -/

structure Subscription where
  plan : String := "free"
  startDate : Option JsDate := none
  endDate : Option JsDate := none
  isActive : Bool := true
  status : String := "active"
  paymentMethod : String := "stripe"
  cancelationType : Option String := none
  stripeCustomerId : Option String := none
  stripeSubscriptionId : Option String := none
  stripePriceId : Option String := none
  sessionId : Option String := none
  lastPaymentDate : Option JsDate := none
  lastTransactionId : Option String := none
  paymentStatus : Option String := none
  paymentFailureReason : Option String := none
  lastFailureDate : Option JsDate := none
deriving Repr, DecidableEq

/-- The JS value handed to updateSubscription in data.endDate: null, the
string "null", the empty string, an unparsable date string (Invalid Date),
or a value parsing to a valid date. `undefined` (field absent) is the `none`
of the surrounding Option. -/
inductive EndDateVal
  | nullV
  | nullStr
  | emptyStr
  | unparsable
  | date (d : JsDate)
deriving Repr, DecidableEq

/-- A partial update as passed to SubscriptionIntegrationService.updateSubscription:
`none` means the field is absent from the update. `cancelationType = some none`
sets the stored field to null. `updateUserRole` is the control flag read by the
service (stripped from persistence by the schema strict mode). -/
structure UpdateData where
  plan : Option String := none
  startDate : Option JsDate := none
  endDate : Option EndDateVal := none
  isActive : Option Bool := none
  status : Option String := none
  paymentMethod : Option String := none
  cancelationType : Option (Option String) := none
  stripeCustomerId : Option String := none
  stripeSubscriptionId : Option (Option String) := none
  stripePriceId : Option (Option String) := none
  sessionId : Option String := none
  lastPaymentDate : Option JsDate := none
  lastTransactionId : Option String := none
  updateUserRole : Option Bool := none
deriving Repr, DecidableEq

/-- Merge of a nullable field: a value present in the update is stored
(as non-null), an absent field keeps the stored value. -/
def setOpt {α : Type} (u : Option α) (r : Option α) : Option α :=
  match u with
  | some v => some v
  | none => r

/-- endDate validation block at the top of updateSubscription
(subscriptionIntegrationService.js lines 14-27): null, "null", "" and
unparsable values are deleted from the update; a parsable value is kept as a
Date. -/
def serviceValidateEndDate : Option EndDateVal → Option EndDateVal
  | none => none
  | some .nullV => none
  | some .nullStr => none
  | some .emptyStr => none
  | some .unparsable => none
  | some (.date d) => some (.date d)

/-- SubscriptionSchema.pre findOneAndUpdate hook (Subscription.js lines 53-67):
same stripping of null / "null" / "" / Invalid Date from update.endDate. -/
def hookValidateEndDate : Option EndDateVal → Option EndDateVal
  | none => none
  | some .nullV => none
  | some .nullStr => none
  | some .emptyStr => none
  | some .unparsable => none
  | some (.date d) => some (.date d)

/-- Role mutation block of updateSubscription (service lines 29-39):
only when data.updateUserRole === true; premium when status active and
isActive truthy, user when status canceled and isActive falsy, otherwise the
role is untouched. -/
def roleAfterUpdate (data : UpdateData) (role : String) : String :=
  if data.updateUserRole == some true then
    if data.status == some "active" && data.isActive == some true then "premium"
    else if data.status == some "canceled" && data.isActive != some true then "user"
    else role
  else role

/-- Schema defaults used when the upsert creates the document
(startDate defaults to Date.now). -/
def defaultSubscription (now : JsDate) : Subscription :=
  { startDate := some now }

/-- Field merge performed by Subscription.findOneAndUpdate with a $set-style
update document: fields present in the update replace the stored ones, the
rest are kept. After the two endDate validations the endDate field is either
absent or a valid date; absent leaves the stored value. -/
def applyUpdate (r : Subscription) (u : UpdateData) : Subscription :=
  { plan := u.plan.getD r.plan
    startDate := setOpt u.startDate r.startDate
    endDate := match u.endDate with
      | some (.date d) => some d
      | _ => r.endDate
    isActive := u.isActive.getD r.isActive
    status := u.status.getD r.status
    paymentMethod := u.paymentMethod.getD r.paymentMethod
    cancelationType := u.cancelationType.getD r.cancelationType
    stripeCustomerId := setOpt u.stripeCustomerId r.stripeCustomerId
    stripeSubscriptionId := u.stripeSubscriptionId.getD r.stripeSubscriptionId
    stripePriceId := u.stripePriceId.getD r.stripePriceId
    sessionId := setOpt u.sessionId r.sessionId
    lastPaymentDate := setOpt u.lastPaymentDate r.lastPaymentDate
    lastTransactionId := setOpt u.lastTransactionId r.lastTransactionId
    paymentStatus := r.paymentStatus
    paymentFailureReason := r.paymentFailureReason
    lastFailureDate := r.lastFailureDate }

/-- SubscriptionIntegrationService.updateSubscription (service lines 9-60):
validates endDate, optionally mutates the user role, then upserts the record
(the pre-findOneAndUpdate hook running on the way). Returns the persisted
record and the resulting user role. -/
def updateSubscription (now : JsDate) (role : String) (db : Option Subscription)
    (data : UpdateData) : Subscription × String :=
  let u1 := { data with endDate := serviceValidateEndDate data.endDate }
  let role2 := roleAfterUpdate u1 role
  let u2 := { u1 with endDate := hookValidateEndDate u1.endDate }
  (applyUpdate (db.getD (defaultSubscription now)) u2, role2)

/-! ## Model-level hooks and methods (src/models/Subscription.js) -/

/-- SubscriptionSchema.pre save hook (Subscription.js lines 37-50): a canceled
document whose endDate has passed (now >= endDate) is deactivated on save.
The Invalid-Date branch is unrepresentable here since stored endDates are
valid by construction. This hook does not run on findOneAndUpdate writes. -/
def presaveHook (now : JsDate) (s : Subscription) : Subscription :=
  if s.status == "canceled" &&
      (match s.endDate with
       | some e => JsDate.leb e now
       | none => false) then
    { s with isActive := false }
  else s

/-- SubscriptionSchema.methods.canBeReactivated (Subscription.js lines 81-87). -/
def Subscription.canBeReactivated (now : JsDate) (s : Subscription) : Bool :=
  s.status == "canceled" && s.isActive &&
    s.cancelationType == some "end_of_period" &&
    (match s.endDate with
     | some e => JsDate.ltb now e
     | none => false)

/-- SubscriptionSchema.statics.cleanupExpired (Subscription.js lines 90-105):
updateMany over all records, setting isActive := false on canceled, still
active records whose endDate <= now. -/
def cleanupExpired (now : JsDate) (db : List Subscription) : List Subscription :=
  db.map fun s =>
    if s.status == "canceled" && s.isActive &&
        (match s.endDate with
         | some e => JsDate.leb e now
         | none => false) then
      { s with isActive := false }
    else s

/-! ## Plan catalog and Stripe oracle -/

/-- The two configured price ids (process.env.STRIPE_PRICE_ANNUAL_ID and
STRIPE_PRICE_MONTHLY_ID); none models an unset variable. -/
structure PriceEnv where
  annualId : Option String
  monthlyId : Option String
deriving Repr, DecidableEq

/-- SubscriptionIntegrationService.getPlanFromStripePrice (service lines
96-105): switch on the price id against the two env ids, defaulting to
premium. -/
def getPlanFromStripePrice (env : PriceEnv) (priceId : Option String) : String :=
  if priceId == env.annualId then "annual"
  else if priceId == env.monthlyId then "monthly"
  else "premium"

/-- Outcome of one Stripe client call: success carrying the returned object,
a resource_missing StripeError, or any other StripeError with its message. -/
inductive StripeResult (α : Type)
  | ok (a : α)
  | resourceMissing
  | otherError (msg : String)
deriving Repr, DecidableEq

/-- The fields of a Stripe subscription object read by the service. -/
structure StripeSubView where
  cancel_at_period_end : Bool
  current_period_end : Option Int
deriving Repr, DecidableEq

/-- Remote side effects issued against the Stripe API, in call order. -/
inductive ProviderCall
  | retrieve (subId : String)
  | scheduleCancel (subId : String)
  | clearCancel (subId : String)
  | cancelNow (subId : String)
deriving Repr, DecidableEq

/-- Result of one service command: thrown error or returned record, together
with the final user role, the final stored record and the provider calls
issued. On a throw the store and role are unchanged. -/
structure OpOutcome where
  result : Except String Subscription
  role : String
  db : Option Subscription
  calls : List ProviderCall
deriving Repr

/-- Local period-end fallback of cancelSubscriptionAtPeriodEnd (service lines
217-223, 241-245 and 254-259): endDate = new Date(); +1 year for annual,
otherwise +1 month. Computed from the current time. -/
def fallbackEndDate (plan : String) (now : JsDate) : JsDate :=
  if plan == "annual" then JsDate.addOneYear now else JsDate.addOneMonth now

/-- Shared tail of cancelSubscriptionAtPeriodEnd (service lines 263-298):
final date validation, then the local update with status canceled,
isActive true, cancelationType end_of_period and updateUserRole false. -/
def cancelAtPeriodEndCommit (now : JsDate) (role : String) (db : Option Subscription)
    (endDate : Option JsDate) (calls : List ProviderCall) : OpOutcome :=
  match endDate with
  | none => ⟨.error "Impossible de déterminer la date de fin", role, db, calls⟩
  | some e =>
    let upd := updateSubscription now role db
      { status := some "canceled"
        isActive := some true
        endDate := some (.date e)
        cancelationType := some (some "end_of_period")
        updateUserRole := some false }
    ⟨.ok upd.1, upd.2, some upd.1, calls⟩

/-- SubscriptionIntegrationService.cancelSubscriptionAtPeriodEnd (service
lines 127-299). The store is searched for an active record, then for a
canceled-but-active one (already scheduled, which throws), then for an
expired one. The Stripe phase retrieves the remote subscription and, when
not already scheduled there, updates it with cancel_at_period_end true; the
period end is taken from Stripe when usable, with the local now-based
fallback otherwise; resource_missing is tolerated, other Stripe errors are
rethrown. The thrown message for an already scheduled record keeps the
source leading words, without the interpolated date. -/
def cancelSubscriptionAtPeriodEnd (now : JsDate) (role : String)
    (db : Option Subscription)
    (retrieveRes : StripeResult StripeSubView)
    (updateRes : StripeResult StripeSubView) : OpOutcome :=
  let subActive := db.bind fun s =>
    if s.status == "active" && s.isActive then some s else none
  match subActive with
  | none =>
    let scheduled := db.bind fun s =>
      if s.status == "canceled" && s.isActive &&
          s.cancelationType != some "immediate" then some s else none
    match scheduled with
    | some _ =>
      ⟨.error "Votre abonnement est déjà programmé pour annulation", role, db, []⟩
    | none =>
      let expired := db.bind fun s =>
        if s.status == "canceled" && !s.isActive then some s else none
      match expired with
      | some _ =>
        ⟨.error "Votre abonnement a déjà expiré. Vous pouvez souscrire à un nouveau plan depuis la page Premium.", role, db, []⟩
      | none => ⟨.error "Aucun abonnement à annuler trouvé.", role, db, []⟩
  | some sub =>
    match sub.stripeSubscriptionId with
    | none =>
      cancelAtPeriodEndCommit now role db (some (fallbackEndDate sub.plan now)) []
    | some sid =>
      match retrieveRes with
      | .otherError m =>
        ⟨.error ("Échec programmation annulation Stripe: " ++ m), role, db,
          [.retrieve sid]⟩
      | .resourceMissing =>
        cancelAtPeriodEndCommit now role db (some (fallbackEndDate sub.plan now))
          [.retrieve sid]
      | .ok cur =>
        if cur.cancel_at_period_end then
          let e1 := match cur.current_period_end with
            | some t => some (epochSecToJsDate t)
            | none => sub.endDate
          let e2 := match e1 with
            | none => some (fallbackEndDate sub.plan now)
            | some e => some e
          cancelAtPeriodEndCommit now role db e2 [.retrieve sid]
        else
          match updateRes with
          | .otherError m =>
            ⟨.error ("Échec programmation annulation Stripe: " ++ m), role, db,
              [.retrieve sid, .scheduleCancel sid]⟩
          | .resourceMissing =>
            cancelAtPeriodEndCommit now role db
              (some (fallbackEndDate sub.plan now)) [.retrieve sid, .scheduleCancel sid]
          | .ok upd =>
            let e1 := match upd.current_period_end with
              | some t => if 0 < t then some (epochSecToJsDate t) else sub.endDate
              | none => sub.endDate
            let e2 := match e1 with
              | none => some (fallbackEndDate sub.plan now)
              | some e => some e
            cancelAtPeriodEndCommit now role db e2 [.retrieve sid, .scheduleCancel sid]

/-- SubscriptionIntegrationService.reactivateSubscription (service lines
302-354): looks up a canceled, still active, end_of_period record; absent
that it throws. The Stripe update clearing cancel_at_period_end is issued
when the record has a stripeSubscriptionId, and every Stripe error is
rethrown. On success the local record becomes active with cancelationType
null and updateUserRole true. No comparison of endDate against the current
time happens anywhere in this function. -/
def reactivateSubscription (now : JsDate) (role : String) (db : Option Subscription)
    (updateRes : StripeResult Unit) : OpOutcome :=
  let found := db.bind fun s =>
    if s.status == "canceled" && s.isActive &&
        s.cancelationType == some "end_of_period" then some s else none
  match found with
  | none => ⟨.error "Aucun abonnement annulé réactivable trouvé.", role, db, []⟩
  | some sub =>
    let commit : List ProviderCall → OpOutcome := fun calls =>
      let upd := updateSubscription now role db
        { status := some "active"
          isActive := some true
          cancelationType := some none
          updateUserRole := some true }
      ⟨.ok upd.1, upd.2, some upd.1, calls⟩
    match sub.stripeSubscriptionId with
    | none => commit []
    | some sid =>
      match updateRes with
      | .ok _ => commit [.clearCancel sid]
      | .resourceMissing =>
        ⟨.error "Échec réactivation Stripe: resource_missing", role, db,
          [.clearCancel sid]⟩
      | .otherError m =>
        ⟨.error ("Échec réactivation Stripe: " ++ m), role, db, [.clearCancel sid]⟩

/-- SubscriptionIntegrationService.cancelSubscriptionImmediately (service
lines 483-537): finds an active or canceled-but-active record, cancels the
Stripe subscription (tolerating resource_missing), and updates the local
record with status canceled, endDate now, isActive false, cancelationType
immediate and updateUserRole true. -/
def cancelSubscriptionImmediately (now : JsDate) (role : String)
    (db : Option Subscription) (cancelRes : StripeResult Unit) : OpOutcome :=
  let found := db.bind fun s =>
    if (s.status == "active" && s.isActive) ||
        (s.status == "canceled" && s.isActive) then some s else none
  match found with
  | none => ⟨.error "Aucun abonnement à annuler immédiatement.", role, db, []⟩
  | some sub =>
    let commit : List ProviderCall → OpOutcome := fun calls =>
      let upd := updateSubscription now role db
        { status := some "canceled"
          endDate := some (.date now)
          isActive := some false
          cancelationType := some (some "immediate")
          updateUserRole := some true }
      ⟨.ok upd.1, upd.2, some upd.1, calls⟩
    match sub.stripeSubscriptionId with
    | none => commit []
    | some sid =>
      match cancelRes with
      | .ok _ => commit [.cancelNow sid]
      | .resourceMissing => commit [.cancelNow sid]
      | .otherError m =>
        ⟨.error ("Échec annulation Stripe: " ++ m), role, db, [.cancelNow sid]⟩

/-! ## Webhook handlers (src/controllers/webhookController.js) -/

/-- The fields of a checkout.session.completed event object read by the
handler. -/
structure CheckoutSession where
  id : String
  customer : Option String
  subscription : Option String
  metaUserId : Option String
  metaPlan : Option String
  payment_intent : Option String
deriving Repr, DecidableEq

/-- WebhookController.handleCheckoutSessionCompleted (webhookController.js
lines 74-164). A missing metadata.userId throws. The Stripe retrieval of the
session subscription (skipped for the simulated test session) supplies the
subscription id and price id and recomputes the plan; its failure is caught
and ignored. The notification block at the end is best-effort and does not
affect the stored record, so it is not modelled. Returns the updated record
and role, or the thrown message. -/
def handleCheckoutSessionCompleted (env : PriceEnv) (now : JsDate)
    (retrieveRes : StripeResult (String × Option String))
    (role : String) (db : Option Subscription)
    (s : CheckoutSession) : Except String (Subscription × String) :=
  match s.metaUserId with
  | none => .error "User ID manquant dans metadata"
  | some _ =>
    let isTest := s.id == "cs_test_simulated"
    let info : Option String × Option String × String :=
      match s.subscription, isTest with
      | some _, false =>
        match retrieveRes with
        | .ok (sid, priceId) =>
          (some sid, priceId, getPlanFromStripePrice env priceId)
        | _ => (none, none, s.metaPlan.getD "premium")
      | _, _ => (none, none, s.metaPlan.getD "premium")
    let upd := updateSubscription now role db
      { plan := some info.2.2
        status := some "active"
        paymentMethod := some "stripe"
        isActive := some true
        sessionId := some s.id
        stripeCustomerId := s.customer
        stripeSubscriptionId := some info.1
        stripePriceId := some info.2.1
        startDate := some now
        lastPaymentDate := some now
        lastTransactionId := some (s.payment_intent.getD s.id)
        updateUserRole := some true }
    .ok upd

/-- WebhookController.handleSubscriptionDeleted (webhookController.js lines
166-201): the customer id is resolved to a userId and, without any missing
check, the record is updated with status canceled, plan free and
updateUserRole true; isActive is not part of the update. `none` is returned
when no local record correlates (the update then targets an undefined
userId, not modelled). -/
def handleSubscriptionDeleted (now : JsDate) (role : String)
    (db : Option Subscription) (evCustomer evId : String) :
    Option (Subscription × String) :=
  match db.bind (fun s =>
      if s.stripeCustomerId == some evCustomer then some s else none) with
  | none => none
  | some _ =>
    some (updateSubscription now role db
      { status := some "canceled"
        plan := some "free"
        stripeSubscriptionId := some (some evId)
        updateUserRole := some true })

/-- The fields of a customer.subscription.updated event object read by the
handler. -/
structure SubscriptionEvent where
  id : String
  customer : String
  status : String
  cancel_at_period_end : Bool
  current_period_end : Option Int
  priceIds : List String
deriving Repr, DecidableEq

/-- Result of handleSubscriptionUpdated: the no-op object returned on a
missing correlation, or the updated record and role. -/
inductive UpdatedOutcome
  | userNotFound
  | updated (sub : Subscription) (role : String)
deriving Repr, DecidableEq

/-- WebhookController.handleSubscriptionUpdated (webhookController.js lines
203-282). A missing correlation returns the non-fatal
{success: false, reason: "User not found"} object. Otherwise the plan comes
from the first price id, endDate from current_period_end (an absent value
becomes an Invalid Date through new Date(undefined * 1000) and is later
stripped), and the update branches on cancel_at_period_end and status. -/
def handleSubscriptionUpdated (env : PriceEnv) (now : JsDate) (role : String)
    (db : Option Subscription) (ev : SubscriptionEvent) : UpdatedOutcome :=
  match db.bind (fun s =>
      if s.stripeCustomerId == some ev.customer then some s else none) with
  | none => .userNotFound
  | some _ =>
    let plan := match ev.priceIds.head? with
      | some pid => getPlanFromStripePrice env (some pid)
      | none => "premium"
    let endDateVal : EndDateVal := match ev.current_period_end with
      | some t => .date (epochSecToJsDate t)
      | none => .unparsable
    let base : UpdateData :=
      { plan := some plan
        stripeSubscriptionId := some (some ev.id)
        endDate := some endDateVal
        updateUserRole := some false }
    let data :=
      if ev.cancel_at_period_end then
        { base with
            status := some "canceled"
            isActive := some true
            cancelationType := some (some "end_of_period") }
      else if ev.status == "active" then
        { base with
            status := some "active"
            isActive := some true
            cancelationType := some none
            updateUserRole := some true }
      else
        { base with
            status := some ev.status
            isActive := some (ev.status == "active")
            updateUserRole := some (ev.status != "active") }
    let upd := updateSubscription now role db data
    .updated upd.1 upd.2

/-! ## Webhook ingress -/

/-- Body of the acknowledgment sent back to Stripe by processWebhookEvent. -/
inductive AckBody
  | handled
  | ignoredAck
  | errorAck (msg : String)
deriving Repr, DecidableEq

/-- The five event types dispatched by processWebhookEvent. -/
def recognizedEventTypes : List String :=
  ["checkout.session.completed", "customer.subscription.deleted",
   "customer.subscription.updated", "invoice.paid", "invoice.payment_failed"]

/-- WebhookController.processWebhookEvent (webhookController.js lines 32-72):
each recognized type awaits its handler inside the try block and answers
res.json (HTTP 200); an unrecognized type answers 200 ignored; any error
thrown by a handler is caught and answered with 200 and the message.
handlerOutcome is the awaited outcome of the dispatched handler. Returns
(status, body). -/
def processWebhookEvent (eventType : String)
    (handlerOutcome : Except String Unit) : Nat × AckBody :=
  if eventType ∈ recognizedEventTypes then
    match handlerOutcome with
    | .ok _ => (200, .handled)
    | .error m => (200, .errorAck m)
  else (200, .ignoredAck)

/-- The try/catch of router.post("/stripe") in
src/routes/stripeWebhookRoutes.js (lines 24-69), mounted at /webhooks/stripe:
after signature verification, the event processing runs in a try block
answering res.status(200); any thrown error is caught and answered with
HTTP 500. processing is the aggregate outcome of the switch body. -/
def routeStripeWebhook (processing : Except String Unit) : Nat :=
  match processing with
  | .ok _ => 200
  | .error _ => 500

/-! ## Outbox / metric retry sweep (src/services/metricRetryService.js) -/

/-- One failed-metrics.json entry: the event kind dispatched by the sweep and
an opaque payload distinguishing entries. -/
structure Metric where
  event : String
  payload : Nat
deriving Repr, DecidableEq

/-- Outcome of one delivery attempt: a response with success true, a response
with success false, or a thrown connection error. -/
inductive DeliveryResult
  | success
  | failure
  | thrown (msg : String)
deriving Repr, DecidableEq

/-- Event kinds the sweep dispatches (metricRetryService.js lines 57-60). -/
def recognizedMetricEvent (m : Metric) : Bool :=
  m.event == "checkout_initiated" || m.event == "subscription_canceled" ||
    m.event == "subscription_upgraded"

/-- Outcome of the attempt the sweep makes for one entry:
checkout_initiated goes through apiClient.metrics.recordPaymentEvent, the
two subscription kinds through recordSubscriptionEvent. -/
def attemptMetric (deliverPayment deliverSub : Metric → DeliveryResult)
    (m : Metric) : DeliveryResult :=
  if m.event == "checkout_initiated" then deliverPayment m
  else deliverSub m

/-- MetricRetryService.retryFailedMetrics core loop (metricRetryService.js
lines 50-78): each entry is re-attempted through its delivery function
inside a per-entry try/catch; an entry is pushed back for the next sweep
when the response has success false or the attempt throws, dropped when it
succeeds, and an unrecognized event kind is skipped. The rewritten file is
the resulting list. -/
def retryFailedMetrics (deliverPayment deliverSub : Metric → DeliveryResult)
    (queue : List Metric) : List Metric :=
  match queue with
  | [] => []
  | m :: rest =>
    let tail := retryFailedMetrics deliverPayment deliverSub rest
    if recognizedMetricEvent m then
      match attemptMetric deliverPayment deliverSub m with
      | .success => tail
      | .failure => m :: tail
      | .thrown _ => m :: tail
    else tail

/-! ## Concrete fixtures used by the claim theorems -/

/-- A record already scheduled for end-of-period cancellation. -/
def schedSub : Subscription :=
  { status := "canceled", isActive := true,
    cancelationType := some "end_of_period", plan := "annual",
    endDate := some ⟨2025, 0, 1⟩, stripeSubscriptionId := some "sub_1",
    stripeCustomerId := some "cus_1" }

/-- An active monthly record correlated with customer cus_2. -/
def activeSub2 : Subscription :=
  { status := "active", isActive := true, plan := "monthly",
    stripeCustomerId := some "cus_2", stripeSubscriptionId := some "sub_2",
    endDate := some ⟨2025, 0, 1⟩ }

/-- A canceled end-of-period record whose endDate (2024-01-01) has already
passed, yet still marked active. -/
def lapsedSub : Subscription :=
  { status := "canceled", isActive := true,
    cancelationType := some "end_of_period", plan := "annual",
    endDate := some ⟨2024, 0, 1⟩, stripeSubscriptionId := none,
    stripeCustomerId := some "cus_3" }

/-- An active monthly record correlated with customer cus_7. -/
def activeSub7 : Subscription :=
  { status := "active", isActive := true, plan := "monthly",
    stripeCustomerId := some "cus_7", stripeSubscriptionId := some "sub_7" }

/-- A stale customer.subscription.updated event: scheduled cancellation with
a period end (2024-01-01) already in the past. -/
def staleEvent : SubscriptionEvent :=
  { id := "sub_7", customer := "cus_7", status := "active",
    cancel_at_period_end := true, current_period_end := some 1704067200,
    priceIds := ["price_m"] }

/-- An active annual record started 2024-01-01 with no Stripe subscription
id, so that cancelSubscriptionAtPeriodEnd takes the local fallback path. -/
def annualSub : Subscription :=
  { status := "active", isActive := true, plan := "annual",
    startDate := some ⟨2024, 0, 1⟩, stripeSubscriptionId := none,
    stripeCustomerId := some "cus_8" }

/-- A checkout session without userId in its metadata. -/
def sessionNoUser : CheckoutSession :=
  { id := "cs_1", customer := some "cus_4", subscription := some "sub_4",
    metaUserId := none, metaPlan := some "monthly", payment_intent := none }

/-- A price environment with both price ids configured. -/
def envBoth : PriceEnv := { annualId := some "price_a", monthlyId := some "price_m" }

/-- An outbox entry of a recognized subscription-metric kind. -/
def metric9 : Metric := { event := "subscription_canceled", payload := 0 }

/-! ## Claim theorems -/

/-- C1 counterexample: on a record already scheduled for end-of-period
cancellation, a second cancelSubscriptionAtPeriodEnd call does not return
the existing schedule: it throws the already-scheduled domain error, even
though Stripe would have answered the retrieval. -/
theorem c1_second_call_does_not_return_schedule :
    (cancelSubscriptionAtPeriodEnd ⟨2024, 5, 15⟩ "premium" (some schedSub)
        (.ok ⟨true, some 1735689600⟩) (.ok ⟨true, some 1735689600⟩)).result =
      .error "Votre abonnement est déjà programmé pour annulation" := rfl

/-- C1 (amended): calling cancelSubscriptionAtPeriodEnd again on a record
already scheduled for end-of-period cancellation (status canceled, isActive
true, cancelationType end_of_period) throws a domain error informing of the
scheduled cancellation; it issues no provider call and leaves the stored
record (hence its endDate) and the user role unchanged, rather than
returning the existing schedule. -/
theorem c1_cancel_at_period_end_second_call (now : JsDate) (role : String)
    (s : Subscription) (ret upd : StripeResult StripeSubView)
    (h1 : s.status = "canceled") (h2 : s.isActive = true)
    (h3 : s.cancelationType = some "end_of_period") :
    (cancelSubscriptionAtPeriodEnd now role (some s) ret upd).result =
      .error "Votre abonnement est déjà programmé pour annulation" ∧
    (cancelSubscriptionAtPeriodEnd now role (some s) ret upd).db = some s ∧
    (cancelSubscriptionAtPeriodEnd now role (some s) ret upd).role = role ∧
    (cancelSubscriptionAtPeriodEnd now role (some s) ret upd).calls = [] := by
  obtain ⟨p, sd, ed, ia, st, pm, ct, sc, ss, sp, se, lp, lt, ps, pf, lf⟩ := s
  simp only at h1 h2 h3
  subst h1; subst h2; subst h3
  exact ⟨rfl, rfl, rfl, rfl⟩

/-- C1 witness: the amended theorem applied to the concrete scheduled
record. -/
theorem c1_cancel_at_period_end_second_call_witness :
    (cancelSubscriptionAtPeriodEnd ⟨2024, 5, 15⟩ "premium" (some schedSub)
        .resourceMissing .resourceMissing).result =
      .error "Votre abonnement est déjà programmé pour annulation" ∧
    (cancelSubscriptionAtPeriodEnd ⟨2024, 5, 15⟩ "premium" (some schedSub)
        .resourceMissing .resourceMissing).db = some schedSub ∧
    (cancelSubscriptionAtPeriodEnd ⟨2024, 5, 15⟩ "premium" (some schedSub)
        .resourceMissing .resourceMissing).role = "premium" ∧
    (cancelSubscriptionAtPeriodEnd ⟨2024, 5, 15⟩ "premium" (some schedSub)
        .resourceMissing .resourceMissing).calls = [] :=
  c1_cancel_at_period_end_second_call ⟨2024, 5, 15⟩ "premium" schedSub
    .resourceMissing .resourceMissing rfl rfl rfl

/-- C2: processing a subscription.deleted webhook on a previously active
record sets status canceled, plan free and downgrades the role to user, but
leaves isActive at its prior value true, because the update built by
handleSubscriptionDeleted carries no isActive field and the
findOneAndUpdate path runs no save hook. The claim requires isActive =
false; the code keeps true. -/
theorem c2_subscription_deleted_leaves_isActive :
    (handleSubscriptionDeleted ⟨2024, 5, 15⟩ "premium" (some activeSub2)
        "cus_2" "sub_2").map
        (fun p => (p.1.status, p.1.plan, p.1.isActive, p.2)) =
      some ("canceled", "free", true, "user") := rfl

/-- C3: reactivateSubscription on a canceled end-of-period record whose
endDate (2024-01-01) already passed at now = 2024-06-15 succeeds and sets
status active, although the model's own canBeReactivated predicate is false
there; the service never compares endDate against the current time. The
claim requires a domain error with the record unchanged. -/
theorem c3_reactivate_lapsed_subscription_succeeds :
    Subscription.canBeReactivated ⟨2024, 5, 15⟩ lapsedSub = false ∧
    lapsedSub.endDate = some ⟨2024, 0, 1⟩ ∧
    JsDate.leb ⟨2024, 0, 1⟩ ⟨2024, 5, 15⟩ = true ∧
    (reactivateSubscription ⟨2024, 5, 15⟩ "premium" (some lapsedSub)
        (.ok ())).result.map
        (fun r => (r.status, r.isActive, r.cancelationType)) =
      .ok ("active", true, (none : Option String)) :=
  ⟨rfl, rfl, rfl, rfl⟩

/-- C4 counterexample: handleCheckoutSessionCompleted with no userId in the
session metadata throws instead of returning a non-fatal no-op result. -/
theorem c4_checkout_missing_userId_throws :
    handleCheckoutSessionCompleted envBoth ⟨2024, 5, 15⟩ .resourceMissing
        "user" none sessionNoUser =
      .error "User ID manquant dans metadata" := rfl

/-- C4 (amended): on a missing correlation, handleSubscriptionUpdated logs
and returns the non-fatal user-not-found no-op; handleCheckoutSessionCompleted
instead throws the missing-userId error, which processWebhookEvent catches
and converts into an HTTP 200 acknowledgment carrying the message, so
nothing escapes the acknowledgment path. -/
theorem c4_missing_correlation_handling (env : PriceEnv) (now : JsDate)
    (role : String) (db : Option Subscription) (ev : SubscriptionEvent)
    (ret : StripeResult (String × Option String)) (s : CheckoutSession)
    (m : String)
    (hdb : ∀ r, db = some r → r.stripeCustomerId ≠ some ev.customer)
    (huid : s.metaUserId = none) :
    handleSubscriptionUpdated env now role db ev = .userNotFound ∧
    handleCheckoutSessionCompleted env now ret role db s =
      .error "User ID manquant dans metadata" ∧
    processWebhookEvent "checkout.session.completed" (.error m) =
      (200, .errorAck m) := by
  refine ⟨?_, ?_, rfl⟩
  · unfold handleSubscriptionUpdated
    cases db with
    | none => rfl
    | some r =>
      have hbeq : (r.stripeCustomerId == some ev.customer) = false := by
        simp only [beq_eq_false_iff_ne, ne_eq]
        exact hdb r rfl
      simp [Option.bind, hbeq]
  · unfold handleCheckoutSessionCompleted
    rw [huid]

/-- C4 witness: the amended theorem on an empty store, the stale event and
the session without userId. -/
theorem c4_missing_correlation_handling_witness :
    handleSubscriptionUpdated envBoth ⟨2024, 5, 15⟩ "user" none staleEvent =
      .userNotFound ∧
    handleCheckoutSessionCompleted envBoth ⟨2024, 5, 15⟩ .resourceMissing
        "user" none sessionNoUser =
      .error "User ID manquant dans metadata" ∧
    processWebhookEvent "checkout.session.completed"
        (.error "User ID manquant dans metadata") =
      (200, .errorAck "User ID manquant dans metadata") :=
  c4_missing_correlation_handling envBoth ⟨2024, 5, 15⟩ "user" none staleEvent
    .resourceMissing sessionNoUser "User ID manquant dans metadata"
    (fun _ h => nomatch h) rfl

/-- C5 counterexample: the webhook ingress mounted at /webhooks/stripe
(stripeWebhookRoutes.js) answers HTTP 500, not a success acknowledgment,
when the processing of an authenticated event throws internally. -/
theorem c5_route_ingress_returns_500 :
    routeStripeWebhook (.error "Erreur interne") = 500 ∧
    routeStripeWebhook (.error "Erreur interne") ≠ 200 :=
  ⟨rfl, by decide⟩

/-- C5 (amended): the controller ingress (processWebhookEvent, mounted at
/webhook) answers HTTP 200 for every event type and every handler outcome,
including a thrown handler error; the secondary ingress at /webhooks/stripe
answers 500 on an internal processing failure. -/
theorem c5_controller_ingress_always_acks_200 (t : String)
    (h : Except String Unit) :
    (processWebhookEvent t h).1 = 200 := by
  unfold processWebhookEvent
  by_cases hc : t ∈ recognizedEventTypes
  · cases h <;> simp [hc]
  · simp [hc]

/-- C6: updateSubscription strips an endDate of null, "null", empty string
or an unparsable date from the update, leaving the stored endDate
unchanged; a parsable date is stored; and every other field of the update
is applied unchanged (merge with the stored record, payment audit fields
untouched by this path). -/
theorem c6_endDate_sanitization_and_frame (now : JsDate) (role : String)
    (r : Subscription) (u : UpdateData) :
    (u.endDate = none →
      (updateSubscription now role (some r) u).1.endDate = r.endDate) ∧
    (u.endDate = some .nullV →
      (updateSubscription now role (some r) u).1.endDate = r.endDate) ∧
    (u.endDate = some .nullStr →
      (updateSubscription now role (some r) u).1.endDate = r.endDate) ∧
    (u.endDate = some .emptyStr →
      (updateSubscription now role (some r) u).1.endDate = r.endDate) ∧
    (u.endDate = some .unparsable →
      (updateSubscription now role (some r) u).1.endDate = r.endDate) ∧
    (∀ d, u.endDate = some (.date d) →
      (updateSubscription now role (some r) u).1.endDate = some d) ∧
    (updateSubscription now role (some r) u).1.plan = u.plan.getD r.plan ∧
    (updateSubscription now role (some r) u).1.status = u.status.getD r.status ∧
    (updateSubscription now role (some r) u).1.isActive =
      u.isActive.getD r.isActive ∧
    (updateSubscription now role (some r) u).1.cancelationType =
      u.cancelationType.getD r.cancelationType ∧
    (updateSubscription now role (some r) u).1.startDate =
      setOpt u.startDate r.startDate ∧
    (updateSubscription now role (some r) u).1.paymentMethod =
      u.paymentMethod.getD r.paymentMethod ∧
    (updateSubscription now role (some r) u).1.stripeCustomerId =
      setOpt u.stripeCustomerId r.stripeCustomerId ∧
    (updateSubscription now role (some r) u).1.stripeSubscriptionId =
      u.stripeSubscriptionId.getD r.stripeSubscriptionId ∧
    (updateSubscription now role (some r) u).1.stripePriceId =
      u.stripePriceId.getD r.stripePriceId ∧
    (updateSubscription now role (some r) u).1.sessionId =
      setOpt u.sessionId r.sessionId ∧
    (updateSubscription now role (some r) u).1.lastPaymentDate =
      setOpt u.lastPaymentDate r.lastPaymentDate ∧
    (updateSubscription now role (some r) u).1.lastTransactionId =
      setOpt u.lastTransactionId r.lastTransactionId ∧
    (updateSubscription now role (some r) u).1.paymentStatus =
      r.paymentStatus ∧
    (updateSubscription now role (some r) u).1.paymentFailureReason =
      r.paymentFailureReason ∧
    (updateSubscription now role (some r) u).1.lastFailureDate =
      r.lastFailureDate := by
  refine ⟨fun h => ?_, fun h => ?_, fun h => ?_, fun h => ?_, fun h => ?_,
    fun d h => ?_,
    rfl, rfl, rfl, rfl, rfl, rfl, rfl, rfl, rfl, rfl, rfl, rfl, rfl, rfl, rfl⟩ <;>
  simp [updateSubscription, applyUpdate, serviceValidateEndDate,
    hookValidateEndDate, h]

/-- C6 witness: an update carrying endDate "null" leaves the stored endDate
unchanged while its status field is applied. -/
theorem c6_endDate_sanitization_and_frame_witness :
    (updateSubscription ⟨2024, 5, 15⟩ "premium" (some activeSub2)
        { status := some "canceled", endDate := some .nullStr }).1.endDate =
      activeSub2.endDate ∧
    (updateSubscription ⟨2024, 5, 15⟩ "premium" (some activeSub2)
        { status := some "canceled", endDate := some .nullStr }).1.status =
      (some "canceled" : Option String).getD activeSub2.status :=
  ⟨(c6_endDate_sanitization_and_frame ⟨2024, 5, 15⟩ "premium" activeSub2
      { status := some "canceled", endDate := some .nullStr }).2.2.1 rfl,
   (c6_endDate_sanitization_and_frame ⟨2024, 5, 15⟩ "premium" activeSub2
      { status := some "canceled", endDate := some .nullStr }).2.2.2.2.2.2.2.1⟩

/-- C7 counterexample: the subscription.updated handler, given a stale event
scheduled for cancellation with a period end (2024-01-01) already in the
past at now = 2024-06-15, persists a record with status canceled, a passed
endDate and isActive still true, so not every write preserves the claimed
invariant. -/
theorem c7_stale_update_breaks_invariant :
    (match handleSubscriptionUpdated envBoth ⟨2024, 5, 15⟩ "premium"
        (some activeSub7) staleEvent with
      | .updated r rl => some (r.status, r.isActive, r.endDate, rl)
      | .userNotFound => none) =
      some ("canceled", true, some (⟨2024, 0, 1⟩ : JsDate), "premium") ∧
    JsDate.leb ⟨2024, 0, 1⟩ ⟨2024, 5, 15⟩ = true :=
  ⟨rfl, rfl⟩

/-- C7 (amended): the invariant is enforced at the save hook, by the
cleanupExpired sweep and by the immediate-cancellation command: the save
hook deactivates a canceled document whose endDate has passed; every record
left by cleanupExpired that is canceled with a passed endDate is inactive;
and cancelSubscriptionImmediately writes status canceled, cancelationType
immediate and isActive false. findOneAndUpdate writes do not enforce it. -/
theorem c7_invariant_enforcement_points (now : JsDate) (s : Subscription)
    (e : JsDate) (db : List Subscription) (role : String)
    (dbu : Option Subscription) (res : StripeResult Unit) :
    ((presaveHook now s).status = "canceled" →
      (presaveHook now s).endDate = some e → JsDate.leb e now = true →
      (presaveHook now s).isActive = false) ∧
    (∀ s2 ∈ cleanupExpired now db, s2.status = "canceled" →
      s2.endDate = some e → JsDate.leb e now = true →
      s2.isActive = false) ∧
    (∀ r, (cancelSubscriptionImmediately now role dbu res).result = .ok r →
      r.status = "canceled" ∧ r.cancelationType = some "immediate" ∧
      r.isActive = false) := by
  refine ⟨?_, ?_, ?_⟩
  · intro h1 h2 h3
    unfold presaveHook at h1 h2 ⊢
    by_cases hcond : (s.status == "canceled" &&
        (match s.endDate with
         | some e => JsDate.leb e now
         | none => false)) = true
    · simp only [hcond, if_true]
    · simp only [hcond, if_false, Bool.false_eq_true, if_neg, ite_false]
        at h1 h2 ⊢
      exfalso
      apply hcond
      rw [h1, h2]
      simp [h3]
  · intro s2 hs2 h1 h2 h3
    unfold cleanupExpired at hs2
    rw [List.mem_map] at hs2
    obtain ⟨s0, hs0, heq⟩ := hs2
    by_cases hcond : (s0.status == "canceled" && s0.isActive &&
        (match s0.endDate with
         | some e => JsDate.leb e now
         | none => false)) = true
    · rw [if_pos hcond] at heq
      subst heq
      rfl
    · rw [if_neg hcond] at heq
      subst heq
      cases hact : s0.isActive
      · rfl
      · exfalso
        apply hcond
        rw [h1, hact, h2]
        simp [h3]
  · intro r hr
    simp only [cancelSubscriptionImmediately] at hr
    split at hr
    · simp at hr
    · split at hr
      · injection hr with h
        subst h
        exact ⟨rfl, rfl, rfl⟩
      · split at hr
        · injection hr with h
          subst h
          exact ⟨rfl, rfl, rfl⟩
        · injection hr with h
          subst h
          exact ⟨rfl, rfl, rfl⟩
        · simp at hr

/-- The lapsed record after deactivation. -/
def lapsedSubInactive : Subscription :=
  { lapsedSub with isActive := false }

/-- The record written by cancelSubscriptionImmediately for activeSub2 at
now = 2024-06-15. -/
def immCanceledSub2 : Subscription :=
  { activeSub2 with
      status := "canceled"
      endDate := some ⟨2024, 5, 15⟩
      isActive := false
      cancelationType := some "immediate" }

/-- C7 witness: the three enforcement points at concrete inputs: the save
hook deactivates the lapsed record, cleanupExpired leaves it inactive, and
the immediate cancellation of the active record writes an inactive
immediate-canceled record. -/
theorem c7_invariant_enforcement_points_witness :
    (presaveHook ⟨2024, 5, 15⟩ lapsedSub).isActive = false ∧
    lapsedSubInactive.isActive = false ∧
    (immCanceledSub2.status = "canceled" ∧
      immCanceledSub2.cancelationType = some "immediate" ∧
      immCanceledSub2.isActive = false) :=
  ⟨(c7_invariant_enforcement_points ⟨2024, 5, 15⟩ lapsedSub ⟨2024, 0, 1⟩
      [lapsedSub] "premium" (some activeSub2) (.ok ())).1 rfl rfl rfl,
   (c7_invariant_enforcement_points ⟨2024, 5, 15⟩ lapsedSub ⟨2024, 0, 1⟩
      [lapsedSub] "premium" (some activeSub2) (.ok ())).2.1
      lapsedSubInactive (by decide)
      rfl rfl rfl,
   (c7_invariant_enforcement_points ⟨2024, 5, 15⟩ lapsedSub ⟨2024, 0, 1⟩
      [lapsedSub] "premium" (some activeSub2) (.ok ())).2.2
      immCanceledSub2 rfl⟩

/-- C8 counterexample: with no usable provider value, cancelling an annual
subscription started 2024-01-01 at now = 2024-06-15 stores the fallback
endDate 2025-06-15, computed from the current time, whereas start plus one
calendar year is 2025-01-01. -/
theorem c8_fallback_computed_from_now :
    (cancelSubscriptionAtPeriodEnd ⟨2024, 5, 15⟩ "premium" (some annualSub)
        .resourceMissing .resourceMissing).result.map Subscription.endDate =
      .ok (some (⟨2025, 5, 15⟩ : JsDate)) ∧
    annualSub.startDate = some ⟨2024, 0, 1⟩ ∧
    JsDate.addOneYear ⟨2024, 0, 1⟩ = ⟨2025, 0, 1⟩ ∧
    (⟨2025, 5, 15⟩ : JsDate) ≠ ⟨2025, 0, 1⟩ :=
  ⟨rfl, rfl, rfl, by decide⟩

/-- C8 (amended): when cancelSubscriptionAtPeriodEnd obtains no usable
period end from the provider (here: no stored Stripe subscription id), the
stored endDate is the locally computed fallback equal to the current time
plus one calendar year for an annual plan and plus one calendar month
otherwise; the 2024-01-01 scenario yields 2025-01-01 exactly when the call
happens at the start date. -/
theorem c8_fallback_end_date (now : JsDate) (role : String)
    (s : Subscription) (ret upd : StripeResult StripeSubView)
    (h1 : s.status = "active") (h2 : s.isActive = true)
    (h3 : s.stripeSubscriptionId = none) :
    (s.plan = "annual" →
      (cancelSubscriptionAtPeriodEnd now role (some s) ret upd).result.map
          Subscription.endDate = .ok (some (JsDate.addOneYear now))) ∧
    (s.plan ≠ "annual" →
      (cancelSubscriptionAtPeriodEnd now role (some s) ret upd).result.map
          Subscription.endDate = .ok (some (JsDate.addOneMonth now))) := by
  obtain ⟨p, sd, ed, ia, st, pm, ct, sc, ss, sp, se, lp, lt, ps, pf, lf⟩ := s
  simp only at h1 h2 h3
  subst h1; subst h2; subst h3
  constructor
  · intro hp
    simp only at hp
    subst hp
    rfl
  · intro hp
    simp only at hp
    have hbeq : (p == "annual") = false := by
      simp only [beq_eq_false_iff_ne, ne_eq]
      exact hp
    unfold cancelSubscriptionAtPeriodEnd cancelAtPeriodEndCommit fallbackEndDate
    simp [Option.bind, hbeq, updateSubscription, applyUpdate,
      serviceValidateEndDate, hookValidateEndDate]
    rfl

/-- C8 witness: cancelling the annual subscription on its start date
2024-01-01 stores the fallback endDate 2025-01-01. -/
theorem c8_fallback_end_date_witness :
    (cancelSubscriptionAtPeriodEnd ⟨2024, 0, 1⟩ "premium" (some annualSub)
        .resourceMissing .resourceMissing).result.map Subscription.endDate =
      .ok (some (JsDate.addOneYear ⟨2024, 0, 1⟩)) ∧
    JsDate.addOneYear ⟨2024, 0, 1⟩ = ⟨2025, 0, 1⟩ :=
  ⟨(c8_fallback_end_date ⟨2024, 0, 1⟩ "premium" annualSub
      .resourceMissing .resourceMissing rfl rfl rfl).1 rfl, rfl⟩

/-- C9: over a queue of entries of the recognized kinds, one retry sweep
keeps exactly the entries whose re-attempt through their delivery function
does not succeed (response with success false, or a thrown error) and
removes the ones that succeed, preserving order; since each entry is
decided by its own attempt, a throwing entry does not prevent the others
from being attempted. -/
theorem c9_retry_sweep_keeps_exactly_failures
    (dp ds : Metric → DeliveryResult) (q : List Metric)
    (h : ∀ m ∈ q, recognizedMetricEvent m = true) :
    retryFailedMetrics dp ds q =
      q.filter (fun m => attemptMetric dp ds m != DeliveryResult.success) := by
  induction q with
  | nil => rfl
  | cons m rest ih =>
    have hm : recognizedMetricEvent m = true := h m (by simp)
    have hrest : ∀ x ∈ rest, recognizedMetricEvent x = true := by
      intro x hx
      exact h x (by simp [hx])
    rw [retryFailedMetrics, ih hrest]
    rw [List.filter]
    cases hd : attemptMetric dp ds m <;> simp [hm, hd] <;> rfl

/-- C9 witness: an entry whose delivery throws on sweep 1, returns a failed
response on sweep 2 and succeeds on sweep 3 is present after the first two
sweeps and absent after the third. -/
theorem c9_retry_sweep_keeps_exactly_failures_witness :
    retryFailedMetrics (fun _ => .success) (fun _ => .thrown "ECONNREFUSED")
        [metric9] = [metric9] ∧
    retryFailedMetrics (fun _ => .success) (fun _ => .failure)
        [metric9] = [metric9] ∧
    retryFailedMetrics (fun _ => .success) (fun _ => .success)
        [metric9] = [] := by
  refine ⟨?_, ?_, ?_⟩ <;>
    rw [c9_retry_sweep_keeps_exactly_failures _ _ _ (by decide)] <;> rfl

/-- C10: updateSubscription changes the user role only when the update
carries updateUserRole = true, and then only to premium on an active and
isActive update, or to user on a canceled and not-isActive update; in every
other case, including a canceled-but-still-active update, the role is
returned unchanged. -/
theorem c10_role_update_frame (now : JsDate) (role : String)
    (db : Option Subscription) (u : UpdateData) :
    (u.updateUserRole ≠ some true →
      (updateSubscription now role db u).2 = role) ∧
    (u.updateUserRole = some true → u.status = some "active" →
      u.isActive = some true →
      (updateSubscription now role db u).2 = "premium") ∧
    (u.updateUserRole = some true → u.status = some "canceled" →
      u.isActive ≠ some true →
      (updateSubscription now role db u).2 = "user") ∧
    (u.updateUserRole = some true → u.status = some "canceled" →
      u.isActive = some true →
      (updateSubscription now role db u).2 = role) ∧
    ((updateSubscription now role db u).2 ≠ role →
      u.updateUserRole = some true ∧
      ((u.status = some "active" ∧ u.isActive = some true ∧
          (updateSubscription now role db u).2 = "premium") ∨
        (u.status = some "canceled" ∧ u.isActive ≠ some true ∧
          (updateSubscription now role db u).2 = "user"))) := by
  have hrole : (updateSubscription now role db u).2 = roleAfterUpdate u role :=
    rfl
  simp only [hrole, roleAfterUpdate]
  by_cases h1 : u.updateUserRole = some true <;>
    by_cases h2 : u.status = some "active" <;>
      by_cases h3 : u.isActive = some true <;>
        by_cases h4 : u.status = some "canceled" <;>
          simp_all

/-- C10 witness: the premium grant on an active update and the role kept on
a canceled-but-still-active update. -/
theorem c10_role_update_frame_witness :
    (updateSubscription ⟨2024, 5, 15⟩ "user" none
        { status := some "active", isActive := some true,
          updateUserRole := some true }).2 = "premium" ∧
    (updateSubscription ⟨2024, 5, 15⟩ "premium" none
        { status := some "canceled", isActive := some true,
          updateUserRole := some true }).2 = "premium" :=
  ⟨(c10_role_update_frame ⟨2024, 5, 15⟩ "user" none
      { status := some "active", isActive := some true,
        updateUserRole := some true }).2.1 rfl rfl rfl,
   (c10_role_update_frame ⟨2024, 5, 15⟩ "premium" none
      { status := some "canceled", isActive := some true,
        updateUserRole := some true }).2.2.2.1 rfl rfl rfl⟩

end Paiement
